import Mathlib

/-!
Verification of the NSWAZ-SRP core: the payout calculator
(src/server/routes.ts, POST /api/killmail/calculate) and the claim status
engine derived from the append-only process log (src/server/storage.ts).
Monetary amounts are modelled as rationals; the JavaScript numbers involved
(isk values, the multipliers 1.0, 0.5, 0.25 and minima thereof) are exact in
binary floating point, so the rational model is faithful.
-/

namespace NSWAZ

/-- Operation type enum from src/shared/schema.ts (operationTypeEnum). -/
inductive OperationType
  | solo
  | fleet
deriving DecidableEq, Repr

/-- Embeds the JavaScript comparison operationType === "fleet". -/
def OperationType.isFleet : OperationType → Bool
  | .fleet => true
  | .solo => false

/-- Embeds the JavaScript comparison operationType === "solo". -/
def OperationType.isSolo : OperationType → Bool
  | .fleet => false
  | .solo => true

/-- SRP_POLICY.FLEET_MULTIPLIER from src/server/routes.ts. -/
def SRP_POLICY_FLEET_MULTIPLIER : ℚ := 1/2

/-- SRP_POLICY.SOLO_MULTIPLIER from src/server/routes.ts. -/
def SRP_POLICY_SOLO_MULTIPLIER : ℚ := 1/4

/-- SRP_POLICY.SPECIAL_ROLE_MULTIPLIER from src/server/routes.ts. -/
def SRP_POLICY_SPECIAL_ROLE_MULTIPLIER : ℚ := 1

/-- SRP_POLICY.DEFAULT_MAX_PAYOUT from src/server/routes.ts (5B ISK). -/
def SRP_POLICY_DEFAULT_MAX_PAYOUT : ℚ := 5000000000

/-- State of SrpLimitsService (src/server/services/srpLimits.ts) after
initialize(): the classToMaxPayout map flattened from the tier file, and the
special-class set. Finite maps are modelled as association lists. -/
structure SrpLimitsService where
  classToMaxPayout : List (String × ℚ)
  specialClasses : List String
deriving DecidableEq, Repr

/-- SrpLimitsService.getSoloMaxPayout: classToMaxPayout.get(groupName) with a
null default, i.e. the first binding for groupName, if any. -/
def SrpLimitsService.getSoloMaxPayout (svc : SrpLimitsService) (groupName : String) : Option ℚ :=
  (svc.classToMaxPayout.find? (fun p => p.1 == groupName)).map Prod.snd

/-- SrpLimitsService.isSpecialClass: specialClasses.has(groupName). -/
def SrpLimitsService.isSpecialClass (svc : SrpLimitsService) (groupName : String) : Bool :=
  svc.specialClasses.contains groupName

/-- Step of the calculate handler:
isSpecialShipClass = groupName ? srpLimitsService.isSpecialClass(groupName) : false.
A missing groupName and the JavaScript-falsy empty string both yield false. -/
def isSpecialShipClassOf (svc : SrpLimitsService) (groupName : Option String) : Bool :=
  match groupName with
  | some g => if g == "" then false else svc.isSpecialClass g
  | none => false

/-- Step of the calculate handler:
effectiveSpecialRole = operationType === "fleet" && isSpecialRole. -/
def effectiveSpecialRoleOf (operationType : OperationType) (isSpecialRole : Bool) : Bool :=
  operationType.isFleet && isSpecialRole

/-- Step of the calculate handler: the if/else chain choosing operationMultiplier. -/
def operationMultiplierOf (svc : SrpLimitsService) (operationType : OperationType)
    (isSpecialRole : Bool) (groupName : Option String) : ℚ :=
  if effectiveSpecialRoleOf operationType isSpecialRole then SRP_POLICY_SPECIAL_ROLE_MULTIPLIER
  else if operationType.isFleet then SRP_POLICY_FLEET_MULTIPLIER
  else if isSpecialShipClassOf svc groupName then SRP_POLICY_SPECIAL_ROLE_MULTIPLIER
  else SRP_POLICY_SOLO_MULTIPLIER

/-- Step of the calculate handler: calculatedAmount = baseValue * operationMultiplier. -/
def calculatedAmountOf (svc : SrpLimitsService) (iskValue : ℚ) (operationType : OperationType)
    (isSpecialRole : Bool) (groupName : Option String) : ℚ :=
  iskValue * operationMultiplierOf svc operationType isSpecialRole groupName

/-- Step of the calculate handler: maxPayout is the solo ceiling for a truthy
groupName when solo (with the 5B default when the lookup misses), and the 5B
default otherwise. -/
def maxPayoutOf (svc : SrpLimitsService) (operationType : OperationType)
    (groupName : Option String) : ℚ :=
  match groupName with
  | some g =>
    if operationType.isSolo && !(g == "") then
      (svc.getSoloMaxPayout g).getD SRP_POLICY_DEFAULT_MAX_PAYOUT
    else SRP_POLICY_DEFAULT_MAX_PAYOUT
  | none => SRP_POLICY_DEFAULT_MAX_PAYOUT

/-- Math.min on two rationals: the smaller argument. -/
def mathMin (a b : ℚ) : ℚ := if a ≤ b then a else b

/-- Breakdown record of SrpCalculateResponse (src/shared/schema.ts). -/
structure SrpCalculateBreakdown where
  baseValue : ℚ
  operationMultiplier : ℚ
  isSpecialRole : Bool
  finalAmount : ℚ
  maxPayout : ℚ
  isSpecialShipClass : Bool
deriving DecidableEq, Repr

/-- SrpCalculateResponse (src/shared/schema.ts). -/
structure SrpCalculateResponse where
  estimatedPayout : ℚ
  breakdown : SrpCalculateBreakdown
deriving DecidableEq, Repr

/-- The body of POST /api/killmail/calculate (src/server/routes.ts, after zod
validation), assembled from the step functions above in source order. -/
def calculate (svc : SrpLimitsService) (iskValue : ℚ) (operationType : OperationType)
    (isSpecialRole : Bool) (groupName : Option String) : SrpCalculateResponse :=
  let baseValue := iskValue
  let isSpecialShipClass := isSpecialShipClassOf svc groupName
  let effectiveSpecialRole := effectiveSpecialRoleOf operationType isSpecialRole
  let operationMultiplier := operationMultiplierOf svc operationType isSpecialRole groupName
  let calculatedAmount := baseValue * operationMultiplier
  let maxPayout := maxPayoutOf svc operationType groupName
  let finalAmount := mathMin calculatedAmount maxPayout
  { estimatedPayout := finalAmount
    breakdown :=
      { baseValue := baseValue
        operationMultiplier := operationMultiplier
        isSpecialRole := effectiveSpecialRole
        finalAmount := finalAmount
        maxPayout := maxPayout
        isSpecialShipClass := isSpecialShipClass } }

/-- Spec-side predicate, following the words of the spec (registered special
class): the given ship group name is a member of the special-class set. Used to
compare the spec statement of the multiplier policy with the code. -/
def specIsSpecialClass (svc : SrpLimitsService) (groupName : Option String) : Bool :=
  match groupName with
  | some name => svc.specialClasses.contains name
  | none => false

/-- Spec-side function, following the words of the spec (tier ceiling exists for
shipGroupName): the tier ceiling registered for the given ship group name, if
any. -/
def specTierCeiling (svc : SrpLimitsService) (groupName : Option String) : Option ℚ :=
  match groupName with
  | some name => svc.getSoloMaxPayout name
  | none => none

/-- Well-formedness of the loaded lookup tables: ship group names occurring in
the static data are nonempty strings (an empty name would be indistinguishable
from a missing one under JavaScript truthiness). -/
def SrpLimitsService.wf (svc : SrpLimitsService) : Prop :=
  (∀ p ∈ svc.classToMaxPayout, p.1 ≠ "") ∧ ∀ c ∈ svc.specialClasses, c ≠ ""

/-- SrpStatus (src/shared/schema.ts): status derived from the process log. -/
inductive SrpStatus
  | pending
  | approved
  | denied
  | paid
deriving DecidableEq, Repr

/-- One srp_process_log row (src/shared/schema.ts), restricted to the fields the
status engine reads. Lists of entries are kept in the descending occurred_at
order in which DatabaseStorage.getSrpProcessLogs returns them (newest first). -/
structure SrpProcessLog where
  processType : String
  byMainChar : String
  note : Option String
deriving DecidableEq, Repr

/-- STATUS_PROCESS_TYPES from src/server/storage.ts. -/
def STATUS_PROCESS_TYPES : List String := ["created", "approve", "deny", "pay"]

/-- PROCESS_TO_STATUS from src/server/storage.ts, as a partial map (a record
lookup miss is undefined in JavaScript, modelled as none). -/
def PROCESS_TO_STATUS (processType : String) : Option SrpStatus :=
  if processType == "created" then some .pending
  else if processType == "approve" then some .approved
  else if processType == "deny" then some .denied
  else if processType == "pay" then some .paid
  else none

/-- deriveStatusFromLogs from src/server/storage.ts: pending on an empty list,
otherwise the status mapped from the first status-changing entry (the for loop
returns at the first hit; the trailing return yields pending). -/
def deriveStatusFromLogs (logs : List SrpProcessLog) : SrpStatus :=
  if logs.length = 0 then .pending
  else
    match logs.find? (fun log => STATUS_PROCESS_TYPES.contains log.processType) with
    | some log => (PROCESS_TO_STATUS log.processType).getD .pending
    | none => .pending

/-- One srp_requests row (src/shared/schema.ts), restricted to the fields the
write path and the duplicate check read. The payout amount is the mutable
field set by DatabaseStorage.addProcessLog. -/
structure SrpRequestRow where
  id : Nat
  seatUserId : Int
  killmailId : Int
  victimCharacterId : Option Int
  operationType : OperationType
  fleetId : Option String
  payoutAmount : Option ℚ
deriving DecidableEq, Repr

/-- The persistent store visible to DatabaseStorage: the srp_requests rows, the
srp_process_log rows tagged with their owning request id (kept newest first, the
descending occurred_at order in which every read query returns them), the set of
existing fleet ids, and the id the next insert will receive. -/
structure SrpStore where
  requests : List SrpRequestRow
  processLogs : List (Nat × SrpProcessLog)
  fleets : List String
  nextId : Nat
deriving DecidableEq, Repr

/-- DatabaseStorage.getSrpRequestByKillmailId (src/server/storage.ts). -/
def SrpStore.getSrpRequestByKillmailId (store : SrpStore) (killmailId : Int) :
    Option SrpRequestRow :=
  store.requests.find? (fun r => r.killmailId == killmailId)

/-- DatabaseStorage.getSrpProcessLogs (src/server/storage.ts): the request's log
entries ordered by descending occurred_at (newest first). -/
def SrpStore.getSrpProcessLogs (store : SrpStore) (srpRequestId : Nat) :
    List SrpProcessLog :=
  (store.processLogs.filter (fun pl => pl.1 == srpRequestId)).map Prod.snd

/-- Fields of InsertSrpRequest (src/shared/schema.ts) that the creation handler
inspects. -/
structure InsertSrpRequest where
  killmailId : Int
  victimCharacterId : Option Int
  operationType : OperationType
  fleetId : Option String
deriving DecidableEq, Repr

/-- DatabaseStorage.createSrpRequest (src/server/storage.ts): inserts the
request row, then the created process-log entry. The insert raises a unique
constraint violation (idx_srp_requests_killmail_id_unique, src/shared/schema.ts)
when a row with the same killmail id already exists, in which case nothing is
written. -/
def SrpStore.createSrpRequest (store : SrpStore) (seatUserId : Int) (mainCharName : String)
    (data : InsertSrpRequest) : Except String (SrpRequestRow × SrpStore) :=
  if (store.requests.find? (fun r => r.killmailId == data.killmailId)).isSome then
    Except.error "duplicate key value violates unique constraint idx_srp_requests_killmail_id_unique"
  else
    let row : SrpRequestRow :=
      { id := store.nextId
        seatUserId := seatUserId
        killmailId := data.killmailId
        victimCharacterId := data.victimCharacterId
        operationType := data.operationType
        fleetId := data.fleetId
        payoutAmount := none }
    Except.ok (row,
      { requests := store.requests ++ [row]
        processLogs := (store.nextId,
          { processType := "created", byMainChar := mainCharName, note := none })
          :: store.processLogs
        fleets := store.fleets
        nextId := store.nextId + 1 })

/-- DatabaseStorage.addProcessLog (src/server/storage.ts): if a payout is
provided, update the request's payout_amount; then insert the process-log entry.
There is no read of the current logs and no derived-status guard anywhere in
this operation. -/
def SrpStore.addProcessLog (store : SrpStore) (srpRequestId : Nat)
    (processType byMainChar : String) (note : Option String) (payout : Option ℚ) : SrpStore :=
  let setPayout := fun (p : ℚ) (r : SrpRequestRow) =>
    if r.id == srpRequestId then { r with payoutAmount := some p } else r
  let store1 :=
    match payout with
    | some p => { store with requests := store.requests.map (setPayout p) }
    | none => store
  let entry : SrpProcessLog :=
    { processType := processType, byMainChar := byMainChar, note := note }
  { store1 with processLogs := (srpRequestId, entry) :: store1.processLogs }

/-- DatabaseStorage.addProcessLog with the outcome of its two database
statements made explicit. The source issues the payout UPDATE and the log INSERT
as two separate awaited statements with no enclosing transaction, so each
autocommits on its own: when the INSERT fails, the already-committed UPDATE
persists. Returns whether the INSERT succeeded, together with the persisted
store. -/
def SrpStore.addProcessLogRun (store : SrpStore) (srpRequestId : Nat)
    (processType byMainChar : String) (note : Option String) (payout : Option ℚ)
    (insertFails : Bool) : Bool × SrpStore :=
  let setPayout := fun (p : ℚ) (r : SrpRequestRow) =>
    if r.id == srpRequestId then { r with payoutAmount := some p } else r
  let store1 :=
    match payout with
    | some p => { store with requests := store.requests.map (setPayout p) }
    | none => store
  let entry : SrpProcessLog :=
    { processType := processType, byMainChar := byMainChar, note := note }
  if insertFails then (false, store1)
  else (true, { store1 with processLogs := (srpRequestId, entry) :: store1.processLogs })

/-- Session data the creation handler reads (src/unnamed/part_004, part_008). -/
structure SessionUser where
  seatUserId : Int
  mainCharacterId : Int
  mainCharacterName : String
  associatedCharacterIds : List Int
deriving DecidableEq, Repr

/-- An HTTP rejection: status code and message key. -/
abbrev HandlerError := Nat × String

/-- Tail of the POST /api/srp-requests handler (src/unnamed/part_008) after the
character-ownership checks: duplicate-killmail check (skipped for a falsy
killmail id), fleet validation, then storage.createSrpRequest. Every rejection
leaves the store untouched. -/
def postSrpRequestChecked (store : SrpStore) (user : SessionUser)
    (validated : InsertSrpRequest) : Except HandlerError SrpRequestRow × SrpStore :=
  if validated.killmailId != 0 &&
      (store.getSrpRequestByKillmailId validated.killmailId).isSome then
    (Except.error (400, "duplicate killmail"), store)
  else if validated.operationType.isFleet && validated.fleetId.getD "" == "" then
    (Except.error (400, "fleet uuid required"), store)
  else if validated.operationType.isFleet && !(store.fleets.contains (validated.fleetId.getD "")) then
    (Except.error (400, "invalid fleet uuid"), store)
  else
    match store.createSrpRequest user.seatUserId user.mainCharacterName validated with
    | Except.error _ => (Except.error (500, "Failed to create request"), store)
    | Except.ok (row, store1) => (Except.ok row, store1)

/-- POST /api/srp-requests handler (src/unnamed/part_008): requires a victim
character id, validates character ownership against the session (with the
main-character fallback when the SeAT list is empty), then proceeds to the
duplicate and fleet checks. -/
def postSrpRequest (store : SrpStore) (user : SessionUser)
    (validated : InsertSrpRequest) : Except HandlerError SrpRequestRow × SrpStore :=
  match validated.victimCharacterId with
  | none => (Except.error (400, "missing victim character"), store)
  | some victimId =>
    if user.associatedCharacterIds.length > 0 then
      if !(user.associatedCharacterIds.contains victimId) then
        (Except.error (403, "killmail character not owned"), store)
      else postSrpRequestChecked store user validated
    else
      if victimId != user.mainCharacterId then
        (Except.error (403, "login character only"), store)
      else postSrpRequestChecked store user validated

/-- Concrete log entries in the four status-changing kinds, with the actor names
the write paths record. -/
def createdLog : SrpProcessLog := { processType := "created", byMainChar := "member", note := none }

/-- Concrete approve entry. -/
def approveLog : SrpProcessLog := { processType := "approve", byMainChar := "fc", note := none }

/-- Concrete deny entry. -/
def denyLog : SrpProcessLog := { processType := "deny", byMainChar := "fc", note := none }

/-- Concrete pay entry. -/
def payLog : SrpProcessLog := { processType := "pay", byMainChar := "fc", note := none }

/-- Concrete audit-kind entry, not status-changing (the source comment reserves
the kind updated for such events). -/
def updatedLog : SrpProcessLog := { processType := "updated", byMainChar := "member", note := none }

/-- A concrete lookup table: one tier binding the Cruiser group to a 300M solo
ceiling, no special classes. -/
def svcDemo : SrpLimitsService :=
  { classToMaxPayout := [("Cruiser", 300000000)], specialClasses := [] }

/-- The empty store. -/
def emptyStore : SrpStore := { requests := [], processLogs := [], fleets := [], nextId := 0 }

/-- A concrete validated creation input. -/
def demoInsert : InsertSrpRequest :=
  { killmailId := 12345, victimCharacterId := some 777, operationType := .solo, fleetId := none }

/-- A concrete session user owning the victim character. -/
def demoUser : SessionUser :=
  { seatUserId := 10, mainCharacterId := 777, mainCharacterName := "member",
    associatedCharacterIds := [777] }

/-- The store after one successful creation: one request row (id 0) and its
created log entry. -/
def storeAfterCreate : SrpStore :=
  match emptyStore.createSrpRequest 10 "member" demoInsert with
  | Except.ok (_, store1) => store1
  | Except.error _ => emptyStore

/-- The request row created by the creation above. -/
def demoRow : SrpRequestRow :=
  { id := 0, seatUserId := 10, killmailId := 12345, victimCharacterId := some 777,
    operationType := .solo, fleetId := none, payoutAmount := none }

/-! ### Helper lemmas -/

theorem mathMin_eq_min (a b : ℚ) : mathMin a b = min a b := (min_def a b).symm

theorem calculate_estimatedPayout (svc : SrpLimitsService) (V : ℚ) (op : OperationType)
    (flag : Bool) (g : Option String) :
    (calculate svc V op flag g).estimatedPayout
      = mathMin (calculatedAmountOf svc V op flag g) (maxPayoutOf svc op g) := rfl

theorem calculate_breakdown_operationMultiplier (svc : SrpLimitsService) (V : ℚ)
    (op : OperationType) (flag : Bool) (g : Option String) :
    (calculate svc V op flag g).breakdown.operationMultiplier
      = operationMultiplierOf svc op flag g := rfl

theorem calculate_breakdown_maxPayout (svc : SrpLimitsService) (V : ℚ)
    (op : OperationType) (flag : Bool) (g : Option String) :
    (calculate svc V op flag g).breakdown.maxPayout = maxPayoutOf svc op g := rfl

theorem getSoloMaxPayout_empty (svc : SrpLimitsService) (hwf : svc.wf) :
    svc.getSoloMaxPayout "" = none := by
  have h : svc.classToMaxPayout.find? (fun p => p.1 == "") = none :=
    List.find?_eq_none.mpr (fun x hx => by simpa using hwf.1 x hx)
  unfold SrpLimitsService.getSoloMaxPayout
  rw [h]
  rfl

theorem isSpecialShipClassOf_eq_spec (svc : SrpLimitsService) (hwf : svc.wf)
    (g : Option String) : isSpecialShipClassOf svc g = specIsSpecialClass svc g := by
  cases g with
  | none => rfl
  | some name =>
    by_cases hname : name = ""
    · subst hname
      have hmem : "" ∉ svc.specialClasses := fun hm => hwf.2 "" hm rfl
      simp [isSpecialShipClassOf, specIsSpecialClass, SrpLimitsService.isSpecialClass,
        List.contains, hmem]
    · simp [isSpecialShipClassOf, specIsSpecialClass, SrpLimitsService.isSpecialClass,
        List.contains, hname]

theorem operationMultiplierOf_cases (svc : SrpLimitsService) (op : OperationType)
    (flag : Bool) (g : Option String) :
    operationMultiplierOf svc op flag g = 1 ∨ operationMultiplierOf svc op flag g = 1/2
      ∨ operationMultiplierOf svc op flag g = 1/4 := by
  unfold operationMultiplierOf SRP_POLICY_SPECIAL_ROLE_MULTIPLIER SRP_POLICY_FLEET_MULTIPLIER
    SRP_POLICY_SOLO_MULTIPLIER
  split_ifs <;> simp

theorem operationMultiplierOf_nonneg (svc : SrpLimitsService) (op : OperationType)
    (flag : Bool) (g : Option String) : 0 ≤ operationMultiplierOf svc op flag g := by
  rcases operationMultiplierOf_cases svc op flag g with h | h | h <;> rw [h] <;> norm_num

theorem operationMultiplierOf_le_one (svc : SrpLimitsService) (op : OperationType)
    (flag : Bool) (g : Option String) : operationMultiplierOf svc op flag g ≤ 1 := by
  rcases operationMultiplierOf_cases svc op flag g with h | h | h <;> rw [h] <;> norm_num

theorem maxPayoutOf_none (svc : SrpLimitsService) (op : OperationType) :
    maxPayoutOf svc op none = SRP_POLICY_DEFAULT_MAX_PAYOUT := rfl

theorem maxPayoutOf_some (svc : SrpLimitsService) (op : OperationType) (name : String) :
    maxPayoutOf svc op (some name)
      = if op.isSolo && !(name == "") then
          (svc.getSoloMaxPayout name).getD SRP_POLICY_DEFAULT_MAX_PAYOUT
        else SRP_POLICY_DEFAULT_MAX_PAYOUT := rfl

theorem maxPayoutOf_nonneg (svc : SrpLimitsService) (op : OperationType) (g : Option String)
    (hceil : ∀ p ∈ svc.classToMaxPayout, 0 ≤ p.2) : 0 ≤ maxPayoutOf svc op g := by
  cases g with
  | none => rw [maxPayoutOf_none, SRP_POLICY_DEFAULT_MAX_PAYOUT]; norm_num
  | some name =>
    rw [maxPayoutOf_some, SRP_POLICY_DEFAULT_MAX_PAYOUT]
    split_ifs with h
    · cases hl : svc.getSoloMaxPayout name with
      | none => rw [Option.getD_none]; norm_num
      | some c =>
        obtain ⟨p, hfind, hsnd⟩ := Option.map_eq_some'.1 hl
        have hp : p ∈ svc.classToMaxPayout := List.mem_of_find?_eq_some hfind
        rw [Option.getD_some, ← hsnd]
        exact hceil p hp
    · norm_num

theorem deriveStatus_of_first_status (pre post : List SrpProcessLog) (e : SrpProcessLog)
    (hpre : ∀ l ∈ pre, ¬ (STATUS_PROCESS_TYPES.contains l.processType = true))
    (he : STATUS_PROCESS_TYPES.contains e.processType = true) :
    deriveStatusFromLogs (pre ++ e :: post) = (PROCESS_TO_STATUS e.processType).getD .pending := by
  have hne : (pre ++ e :: post).length ≠ 0 := by simp
  have hpre2 : pre.find? (fun log => STATUS_PROCESS_TYPES.contains log.processType) = none :=
    List.find?_eq_none.mpr hpre
  unfold deriveStatusFromLogs
  rw [if_neg hne, List.find?_append, hpre2,
    @List.find?_cons_of_pos _ (fun log => STATUS_PROCESS_TYPES.contains log.processType) e post he,
    Option.none_or]

theorem postSrpRequestChecked_duplicate (store : SrpStore) (user : SessionUser)
    (validated : InsertSrpRequest)
    (hdup : (store.requests.find? (fun r => r.killmailId == validated.killmailId)).isSome = true) :
    (∃ err, (postSrpRequestChecked store user validated).1 = Except.error err)
    ∧ (postSrpRequestChecked store user validated).2 = store := by
  have hcreate : store.createSrpRequest user.seatUserId user.mainCharacterName validated
      = Except.error
        "duplicate key value violates unique constraint idx_srp_requests_killmail_id_unique" := by
    unfold SrpStore.createSrpRequest
    rw [if_pos hdup]
  unfold postSrpRequestChecked SrpStore.getSrpRequestByKillmailId
  split_ifs with h1 h2 h3
  · exact ⟨⟨_, rfl⟩, rfl⟩
  · exact ⟨⟨_, rfl⟩, rfl⟩
  · exact ⟨⟨_, rfl⟩, rfl⟩
  · rw [hcreate]
    exact ⟨⟨_, rfl⟩, rfl⟩

/-! ### Claim theorems -/

/-- C1: deriveStatus, applied to a claim's process-log entries ordered by
descending timestamp (the order getSrpProcessLogs returns), yields pending on an
empty list, and otherwise the status mapped from the first status-changing entry
kind (created to pending, approve to approved, deny to denied, pay to paid). In
particular, the chronological sequences created-approve-pay, created-deny,
created alone, and the illegal created-approve-deny (given to the function in
descending order) derive paid, denied, pending and denied respectively, without
erroring. -/
theorem deriveStatusFromLogs_spec :
    deriveStatusFromLogs [] = SrpStatus.pending
    ∧ (∀ pre post : List SrpProcessLog, ∀ e : SrpProcessLog,
        (∀ l ∈ pre, ¬ (STATUS_PROCESS_TYPES.contains l.processType = true)) →
        STATUS_PROCESS_TYPES.contains e.processType = true →
        ((e.processType = "created" →
            deriveStatusFromLogs (pre ++ e :: post) = SrpStatus.pending)
          ∧ (e.processType = "approve" →
              deriveStatusFromLogs (pre ++ e :: post) = SrpStatus.approved)
          ∧ (e.processType = "deny" →
              deriveStatusFromLogs (pre ++ e :: post) = SrpStatus.denied)
          ∧ (e.processType = "pay" →
              deriveStatusFromLogs (pre ++ e :: post) = SrpStatus.paid)))
    ∧ deriveStatusFromLogs [payLog, approveLog, createdLog] = SrpStatus.paid
    ∧ deriveStatusFromLogs [denyLog, createdLog] = SrpStatus.denied
    ∧ deriveStatusFromLogs [createdLog] = SrpStatus.pending
    ∧ deriveStatusFromLogs [denyLog, approveLog, createdLog] = SrpStatus.denied := by
  refine ⟨rfl, ?_, by decide, by decide, by decide, by decide⟩
  intro pre post e hpre he
  have hmain := deriveStatus_of_first_status pre post e hpre he
  refine ⟨?_, ?_, ?_, ?_⟩ <;> intro hk <;> rw [hmain, hk] <;> rfl

/-- Witness for C1: the general clause applied to a concrete log list headed by
a non-status audit entry. -/
theorem deriveStatusFromLogs_spec_witness :
    deriveStatusFromLogs ([updatedLog] ++ approveLog :: [createdLog]) = SrpStatus.approved := by
  have h := deriveStatusFromLogs_spec.2.1 [updatedLog] [createdLog] approveLog
    (by decide) (by decide)
  exact h.2.1 rfl

/-- C2: for every input to calculate with baseValue nonnegative (group names in
the loaded tables being nonempty), the operation multiplier is 1.0 when the
context is fleet and the special-role flag is set, else 0.5 when the context is
fleet, else 1.0 when the ship group is a registered special class, else 0.25;
and calculatedAmount is baseValue times the operation multiplier. -/
theorem operationMultiplier_policy (svc : SrpLimitsService) (hwf : svc.wf) (V : ℚ)
    (hV : 0 ≤ V) (op : OperationType) (flag : Bool) (g : Option String) :
    (calculate svc V op flag g).breakdown.operationMultiplier =
      (if op = OperationType.fleet ∧ flag = true then 1
        else if op = OperationType.fleet then 1/2
        else if specIsSpecialClass svc g then 1
        else 1/4)
    ∧ calculatedAmountOf svc V op flag g
        = V * (calculate svc V op flag g).breakdown.operationMultiplier := by
  constructor
  · rw [calculate_breakdown_operationMultiplier]
    unfold operationMultiplierOf effectiveSpecialRoleOf SRP_POLICY_SPECIAL_ROLE_MULTIPLIER
      SRP_POLICY_FLEET_MULTIPLIER SRP_POLICY_SOLO_MULTIPLIER
    rw [isSpecialShipClassOf_eq_spec svc hwf g]
    cases op <;> cases flag <;> simp [OperationType.isFleet]
  · rfl

/-- Witness for C2: a concrete solo claim of a non-special cruiser. -/
theorem operationMultiplier_policy_witness :
    svcDemo.wf ∧ (0 : ℚ) ≤ 1000000000
    ∧ ((calculate svcDemo 1000000000 OperationType.solo false (some "Cruiser")).breakdown.operationMultiplier =
        (if OperationType.solo = OperationType.fleet ∧ false = true then 1
          else if OperationType.solo = OperationType.fleet then 1/2
          else if specIsSpecialClass svcDemo (some "Cruiser") then 1
          else 1/4)
      ∧ calculatedAmountOf svcDemo 1000000000 OperationType.solo false (some "Cruiser")
          = 1000000000 * (calculate svcDemo 1000000000 OperationType.solo false (some "Cruiser")).breakdown.operationMultiplier) :=
  ⟨by unfold SrpLimitsService.wf; decide, by norm_num,
    operationMultiplier_policy svcDemo (by unfold SrpLimitsService.wf; decide) 1000000000
      (by norm_num) OperationType.solo false (some "Cruiser")⟩

/-- C3: maxPayout is the group's tier ceiling exactly when the context is solo
and a ceiling is registered for the given group name (group names in the loaded
tables being nonempty); otherwise it is the 5B default; the estimated payout is
the minimum of calculatedAmount and maxPayout; and on the concrete input
baseValue 2B, solo, group ceiling 300M the estimated payout is 300M. -/
theorem maxPayout_policy (svc : SrpLimitsService) (hwf : svc.wf) (V : ℚ)
    (op : OperationType) (flag : Bool) (g : Option String) :
    (op = OperationType.solo → ∀ c : ℚ, specTierCeiling svc g = some c →
        (calculate svc V op flag g).breakdown.maxPayout = c)
    ∧ ((op = OperationType.fleet ∨ specTierCeiling svc g = none) →
        (calculate svc V op flag g).breakdown.maxPayout = 5000000000)
    ∧ (calculate svc V op flag g).estimatedPayout
        = min (calculatedAmountOf svc V op flag g) ((calculate svc V op flag g).breakdown.maxPayout)
    ∧ (calculate svcDemo 2000000000 OperationType.solo false (some "Cruiser")).estimatedPayout
        = 300000000 := by
  refine ⟨?_, ?_, ?_, ?_⟩
  · intro hop c hc
    subst hop
    rw [calculate_breakdown_maxPayout]
    cases g with
    | none => simp [specTierCeiling] at hc
    | some name =>
      have hname : ¬ (name = "") := by
        intro hn
        subst hn
        rw [show specTierCeiling svc (some "") = svc.getSoloMaxPayout "" from rfl,
          getSoloMaxPayout_empty svc hwf] at hc
        exact Option.noConfusion hc
      have hcond : (OperationType.isSolo OperationType.solo && !(name == "")) = true := by
        simp [OperationType.isSolo, hname]
      rw [maxPayoutOf_some, if_pos hcond,
        show specTierCeiling svc (some name) = svc.getSoloMaxPayout name from rfl] at *
      rw [hc, Option.getD_some]
  · intro hor
    rw [calculate_breakdown_maxPayout]
    rcases hor with hop | hnone
    · subst hop
      cases g with
      | none => rw [maxPayoutOf_none]; rfl
      | some name =>
        rw [maxPayoutOf_some]
        simp [OperationType.isSolo]
        rfl
    · cases g with
      | none => rw [maxPayoutOf_none]; rfl
      | some name =>
        rw [show specTierCeiling svc (some name) = svc.getSoloMaxPayout name from rfl] at hnone
        rw [maxPayoutOf_some]
        split_ifs with h
        · rw [hnone, Option.getD_none]; rfl
        · rfl
  · rw [calculate_estimatedPayout, calculate_breakdown_maxPayout, mathMin_eq_min]
  · have hC : ¬ (("Cruiser" : String) = "") := by decide
    norm_num [calculate, mathMin, calculatedAmountOf, operationMultiplierOf, maxPayoutOf,
      effectiveSpecialRoleOf, isSpecialShipClassOf, OperationType.isFleet, OperationType.isSolo,
      SrpLimitsService.getSoloMaxPayout, SrpLimitsService.isSpecialClass,
      SRP_POLICY_FLEET_MULTIPLIER, SRP_POLICY_SOLO_MULTIPLIER,
      SRP_POLICY_SPECIAL_ROLE_MULTIPLIER, SRP_POLICY_DEFAULT_MAX_PAYOUT, svcDemo, hC]

/-- Witness for C3: the policy theorem applied to a concrete solo cruiser claim,
with its ceiling clause evaluated at the registered 300M ceiling. -/
theorem maxPayout_policy_witness :
    svcDemo.wf
    ∧ ((calculate svcDemo 400000000 OperationType.solo false (some "Cruiser")).breakdown.maxPayout
        = 300000000) :=
  ⟨by unfold SrpLimitsService.wf; decide,
    (maxPayout_policy svcDemo (by unfold SrpLimitsService.wf; decide) 400000000
      OperationType.solo false (some "Cruiser")).1 rfl 300000000 (by decide)⟩

/-- C4 (evidence of the code bug): the write path performs no derived-status
guard. DatabaseStorage.addProcessLog never reads the claim's current logs, so a
pay entry can be appended to a freshly created claim whose derived status is
pending, flipping the derived status straight from pending to paid, contrary to
the transition rule (and to the flow comment in src/server/storage.ts). -/
theorem pay_append_unguarded :
    deriveStatusFromLogs (storeAfterCreate.getSrpProcessLogs 0) = SrpStatus.pending
    ∧ (storeAfterCreate.addProcessLog 0 "pay" "fc" none none).getSrpProcessLogs 0
        = payLog :: storeAfterCreate.getSrpProcessLogs 0
    ∧ deriveStatusFromLogs
        ((storeAfterCreate.addProcessLog 0 "pay" "fc" none none).getSrpProcessLogs 0)
        = SrpStatus.paid :=
  ⟨by decide, by decide, by decide⟩

/-- C5 (evidence of the code bug): DatabaseStorage.addProcessLog issues the
payout UPDATE and the log INSERT as two independently committed statements with
no transaction; when the INSERT fails after the UPDATE committed, the claim is
left with its payout field set while its log still derives pending, the exact
state the claim forbids. -/
theorem approve_payout_update_not_atomic :
    (storeAfterCreate.addProcessLogRun 0 "approve" "fc" none (some 100000000) true).1 = false
    ∧ ((storeAfterCreate.addProcessLogRun 0 "approve" "fc" none (some 100000000) true).2.requests.find?
        (fun r => r.id == 0)).map SrpRequestRow.payoutAmount = some (some 100000000)
    ∧ deriveStatusFromLogs
        (((storeAfterCreate.addProcessLogRun 0 "approve" "fc" none (some 100000000) true).2).getSrpProcessLogs 0)
        = SrpStatus.pending :=
  ⟨by decide, by decide, by decide⟩

/-- C6: for every positive baseValue and every ship group that is neither
special-role (flag false) nor a registered special class (group names in the
loaded tables being nonempty), the pre-ceiling calculated amount of a fleet
claim is exactly twice that of the corresponding solo claim (multiplier 0.5
versus 0.25). -/
theorem fleet_double_solo_before_ceiling (svc : SrpLimitsService) (hwf : svc.wf) (V : ℚ)
    (hV : 0 < V) (g : Option String) (hns : specIsSpecialClass svc g = false) :
    calculatedAmountOf svc V OperationType.fleet false g
      = 2 * calculatedAmountOf svc V OperationType.solo false g := by
  have hclass := isSpecialShipClassOf_eq_spec svc hwf g
  unfold calculatedAmountOf operationMultiplierOf effectiveSpecialRoleOf
  rw [hclass, hns]
  simp only [OperationType.isFleet, Bool.false_and, Bool.and_false, Bool.true_and,
    if_false, Bool.false_eq_true, SRP_POLICY_FLEET_MULTIPLIER, SRP_POLICY_SOLO_MULTIPLIER,
    ite_false, ite_true]
  ring

/-- Witness for C6: a concrete 1B cruiser loss. -/
theorem fleet_double_solo_before_ceiling_witness :
    svcDemo.wf ∧ (0 : ℚ) < 1000000000
    ∧ specIsSpecialClass svcDemo (some "Cruiser") = false
    ∧ calculatedAmountOf svcDemo 1000000000 OperationType.fleet false (some "Cruiser")
        = 2 * calculatedAmountOf svcDemo 1000000000 OperationType.solo false (some "Cruiser") :=
  ⟨by unfold SrpLimitsService.wf; decide, by norm_num, by decide,
    fleet_double_solo_before_ceiling svcDemo (by unfold SrpLimitsService.wf; decide)
      1000000000 (by norm_num) (some "Cruiser") (by decide)⟩

/-- C7: the special-role flag has no effect when the operation context is solo:
calculate returns identical responses (estimated payout and full breakdown) for
flag true and flag false. -/
theorem specialRole_noop_for_solo (svc : SrpLimitsService) (V : ℚ) (g : Option String) :
    calculate svc V OperationType.solo true g = calculate svc V OperationType.solo false g := rfl

/-- C8: inserting an entry whose kind is not a status-changing kind anywhere in
a log list never changes the derived status. -/
theorem deriveStatus_ignores_nonstatus_insert (e : SrpProcessLog)
    (he : ¬ (STATUS_PROCESS_TYPES.contains e.processType = true))
    (xs ys : List SrpProcessLog) :
    deriveStatusFromLogs (xs ++ e :: ys) = deriveStatusFromLogs (xs ++ ys) := by
  have hfind : (xs ++ e :: ys).find? (fun log => STATUS_PROCESS_TYPES.contains log.processType)
      = (xs ++ ys).find? (fun log => STATUS_PROCESS_TYPES.contains log.processType) := by
    rw [List.find?_append, List.find?_append,
      @List.find?_cons_of_neg _ (fun log => STATUS_PROCESS_TYPES.contains log.processType) e ys he]
  rcases hxy : xs ++ ys with _ | ⟨z, zs⟩
  · have hx : xs = [] := (List.append_eq_nil.mp hxy).1
    have hy : ys = [] := (List.append_eq_nil.mp hxy).2
    subst hx
    subst hy
    have hce : List.find? (fun log => STATUS_PROCESS_TYPES.contains log.processType) [e]
        = none := by
      rw [@List.find?_cons_of_neg _ (fun log => STATUS_PROCESS_TYPES.contains log.processType)
        e [] he]
      rfl
    have h1 : (([] : List SrpProcessLog) ++ e :: []).length ≠ 0 := by simp
    unfold deriveStatusFromLogs
    rw [if_neg h1]
    rw [show (([] : List SrpProcessLog) ++ e :: []) = [e] from rfl, hce]
    rfl
  · have h1 : (xs ++ e :: ys).length ≠ 0 := by simp
    have h2 : (z :: zs).length ≠ 0 := by simp
    rw [hxy] at hfind
    unfold deriveStatusFromLogs
    rw [if_neg h1, if_neg h2, hfind]

/-- Witness for C8: inserting a concrete updated entry into a concrete approved
log leaves the derived status unchanged. -/
theorem deriveStatus_ignores_nonstatus_insert_witness :
    deriveStatusFromLogs [approveLog, updatedLog, createdLog]
      = deriveStatusFromLogs [approveLog, createdLog] :=
  deriveStatus_ignores_nonstatus_insert updatedLog (by decide) [approveLog] [createdLog]

/-- C9: creating a claim whose killmail id equals that of an existing claim is
rejected with an error (the handler's duplicate check, or the storage unique
index for a falsy killmail id), and the store, including the existing claim and
its process log, is returned unchanged; the handler makes a single attempt and
returns the error without retrying. -/
theorem duplicate_killmail_creation_rejected (store : SrpStore) (user : SessionUser)
    (validated : InsertSrpRequest) (existing : SrpRequestRow)
    (hmem : existing ∈ store.requests) (hkm : existing.killmailId = validated.killmailId) :
    (∃ err, (postSrpRequest store user validated).1 = Except.error err)
    ∧ (postSrpRequest store user validated).2 = store := by
  obtain ⟨km, vc, ot, fid⟩ := validated
  have hdup : (store.requests.find?
      (fun r => r.killmailId == (InsertSrpRequest.mk km vc ot fid).killmailId)).isSome
      = true := by
    rw [List.find?_isSome]
    exact ⟨existing, hmem, by simp [hkm]⟩
  cases vc with
  | none => exact ⟨⟨_, rfl⟩, rfl⟩
  | some victimId =>
    simp only [postSrpRequest]
    split_ifs with h1 h2 h3
    · exact ⟨⟨_, rfl⟩, rfl⟩
    · exact postSrpRequestChecked_duplicate store user (InsertSrpRequest.mk km (some victimId) ot fid) hdup
    · exact ⟨⟨_, rfl⟩, rfl⟩
    · exact postSrpRequestChecked_duplicate store user (InsertSrpRequest.mk km (some victimId) ot fid) hdup

/-- Witness for C9: re-submitting the killmail of the already-created demo claim
is rejected and leaves the store unchanged. -/
theorem duplicate_killmail_creation_rejected_witness :
    demoRow ∈ storeAfterCreate.requests
    ∧ demoRow.killmailId = demoInsert.killmailId
    ∧ ((∃ err, (postSrpRequest storeAfterCreate demoUser demoInsert).1 = Except.error err)
        ∧ (postSrpRequest storeAfterCreate demoUser demoInsert).2 = storeAfterCreate) :=
  ⟨by decide, rfl,
    duplicate_killmail_creation_rejected storeAfterCreate demoUser demoInsert demoRow
      (by decide) rfl⟩

/-- C10: for every input with nonnegative baseValue, all registered tier
ceilings being nonnegative, the estimated payout is nonnegative, never exceeds
the base value, and never exceeds the breakdown's maxPayout. -/
theorem estimatedPayout_bounded (svc : SrpLimitsService) (V : ℚ) (op : OperationType)
    (flag : Bool) (g : Option String) (hV : 0 ≤ V)
    (hceil : ∀ p ∈ svc.classToMaxPayout, 0 ≤ p.2) :
    0 ≤ (calculate svc V op flag g).estimatedPayout
    ∧ (calculate svc V op flag g).estimatedPayout ≤ V
    ∧ (calculate svc V op flag g).estimatedPayout
        ≤ (calculate svc V op flag g).breakdown.maxPayout := by
  have hm0 : 0 ≤ operationMultiplierOf svc op flag g := operationMultiplierOf_nonneg svc op flag g
  have hm1 : operationMultiplierOf svc op flag g ≤ 1 := operationMultiplierOf_le_one svc op flag g
  have hmax : 0 ≤ maxPayoutOf svc op g := maxPayoutOf_nonneg svc op g hceil
  rw [calculate_estimatedPayout, calculate_breakdown_maxPayout, mathMin_eq_min]
  unfold calculatedAmountOf
  refine ⟨le_min (mul_nonneg hV hm0) hmax, ?_, min_le_right _ _⟩
  exact (min_le_left _ _).trans (mul_le_of_le_one_right hV hm1)

/-- Witness for C10: bounds at a concrete solo cruiser claim. -/
theorem estimatedPayout_bounded_witness :
    (0 : ℚ) ≤ 1000000000
    ∧ (∀ p ∈ svcDemo.classToMaxPayout, 0 ≤ p.2)
    ∧ (0 ≤ (calculate svcDemo 1000000000 OperationType.solo false (some "Cruiser")).estimatedPayout
        ∧ (calculate svcDemo 1000000000 OperationType.solo false (some "Cruiser")).estimatedPayout ≤ 1000000000
        ∧ (calculate svcDemo 1000000000 OperationType.solo false (some "Cruiser")).estimatedPayout
            ≤ (calculate svcDemo 1000000000 OperationType.solo false (some "Cruiser")).breakdown.maxPayout) :=
  ⟨by norm_num, by norm_num [svcDemo],
    estimatedPayout_bounded svcDemo 1000000000 OperationType.solo false (some "Cruiser")
      (by norm_num) (by norm_num [svcDemo])⟩

end NSWAZ
